import Mathlib

/-!
Shallow embedding of the dep-fc pipeline (digitalearthpacific/dep-fc).

The definitions below translate, per pixel, the masking / classification
transform of `FCPercentiles.native_transform` and the surrounding glue in
`src/create_annual_summary.py`, the sentinel remap of `FCProcessor.process`
in `src/process_fc_scene.py`, the error-handling control flow of
`process_fc_scene` / `main`, and the task lister of `src/list.py`.

Rasters are modelled as functions from a pixel coordinate (`ℤ × ℤ`) to a
natural-number band value (the arrays are numpy `uint8`; every operation
that can overflow carries an explicit `% 256`).  Boolean masks are
functions to `Bool`.  External library calls (`odc.algo.mask_cleanup`,
`odc.algo.keep_good_only`, `np.clip`, `cloud_logger.filter_by_log`) are
modelled by their documented behaviour at the call sites.
-/

namespace DepFC

/-- `NODATA` from `src/config.py`: the uint8 nodata sentinel. -/
def NODATA : ℕ := 255

/-- A pixel coordinate (y, x) on the raster grid. -/
abbrev Pix := ℤ × ℤ

/-- The input dataset of `native_transform`: merged WOFL and fractional
cover data with variables `water`, `bs`, `pv`, `npv` and `ue`
(all uint8 arrays, modelled per pixel). -/
structure FCInput where
  water : Pix → ℕ
  bs : Pix → ℕ
  pv : Pix → ℕ
  npv : Pix → ℕ
  ue : Pix → ℕ

/-- The `cloud_filters` dict of `StatsFCP`, restricted to the two keys of
`FCPercentiles.BAD_BITS_MASK` (`cloud` ↦ bit 6, `cloud_shadow` ↦ bit 5).
A configured entry holds the dilation radius of the single
`("dilation", r)` filter used in `main`. -/
structure CloudFilters where
  cloud : Option ℕ
  cloud_shadow : Option ℕ

/-- The `StatsFCP` configuration fields read by `native_transform`. -/
structure FCConfig where
  cloud_filters : CloudFilters
  ue_threshold : Option ℕ
  max_sum_limit : Option ℕ
  clip_range : Option (ℕ × ℕ)

/-- `~np.uint8(1 << 4)` = 0xEF: all uint8 bits except bit 4
(high terrain slope). -/
def terrainMask : ℕ := 239

/-- Line 90: `mask = xx["water"] & ~np.uint8(1 << 4)` — the water value
with the terrain-slope bit discounted. -/
def discounted (x : FCInput) (p : Pix) : ℕ :=
  Nat.land (x.water p) terrainMask

/-- Line 92: `valid = mask == 0` — clear and dry pixels. -/
def valid0 (x : FCInput) (p : Pix) : Bool :=
  discounted x p == 0

/-- Line 93: `wet = mask == 128` — clear and wet pixels. -/
def wet0 (x : FCInput) (p : Pix) : Bool :=
  discounted x p == 128

/-- Modelled from the spec: `odc.algo.mask_cleanup` with a single
`("dilation", r)` filter is a morphological (structuring-element) binary
dilation of the mask by radius `r`, here with a Euclidean disk. -/
def dilate (r : ℕ) (m : Pix → Bool) (p : Pix) : Bool :=
  decide (∃ dx ∈ Finset.Icc (-(r : ℤ)) (r : ℤ), ∃ dy ∈ Finset.Icc (-(r : ℤ)) (r : ℤ),
    dx ^ 2 + dy ^ 2 ≤ (r : ℤ) ^ 2 ∧ m (p.1 + dx, p.2 + dy) = true)

/-- Line 98: `raw_mask = (xx["water"] & val) > 0` for a bad-bits value. -/
def badBit (x : FCInput) (bit : ℕ) (p : Pix) : Bool :=
  0 < Nat.land (x.water p) bit

/-- One iteration of the lines 96–103 loop for one mask (`valid` or
`wet`): when a filter is configured for the key, dilate the raw bad-bit
mask and clear the mask under it (`m &= ~raw_mask`). -/
def filterStep (bit : ℕ) (filt : Option ℕ) (x : FCInput) (m : Pix → Bool) :
    Pix → Bool :=
  fun p =>
    match filt with
    | none => m p
    | some r => m p && !(dilate r (badBit x bit) p)

/-- The `valid` mask after the cloud (bit 6, applied first) and
cloud-shadow (bit 5) dilation filters of lines 96–103. -/
def validAfterFilters (cf : CloudFilters) (x : FCInput) : Pix → Bool :=
  filterStep 32 cf.cloud_shadow x (filterStep 64 cf.cloud x (valid0 x))

/-- The `wet` mask after the same two dilation filters. -/
def wetAfterFilters (cf : CloudFilters) (x : FCInput) : Pix → Bool :=
  filterStep 32 cf.cloud_shadow x (filterStep 64 cf.cloud x (wet0 x))

/-- Lines 108–110: when a ue threshold is configured,
`valid &= xx.ue < self.ue_threshold`. -/
def validAfterUe (cfg : FCConfig) (x : FCInput) (v : Pix → Bool) : Pix → Bool :=
  fun p =>
    match cfg.ue_threshold with
    | none => v p
    | some t => v p && decide (x.ue p < t)

/-- Line 119: `keep_good_only(xx[band], ~mask, nodata=0)` with
`mask = xx[band] == NODATA` — the band value with NODATA pixels zeroed
before summation. -/
def goodVal (band : Pix → ℕ) (p : Pix) : ℕ :=
  if band p = NODATA then 0 else band p

/-- Lines 115–122: `sum_bands`, accumulated over the fractional-cover
bands in dataset order (`bs`, `pv`, `npv`).  Each accumulation is a
numpy uint8 addition and wraps modulo 256. -/
def sumBands (x : FCInput) (p : Pix) : ℕ :=
  ((goodVal x.bs p % 256 + goodVal x.pv p) % 256 + goodVal x.npv p) % 256

/-- Lines 131–132: when a max-sum limit is configured,
`valid &= sum_bands < self.max_sum_limit`. -/
def validAfterSum (cfg : FCConfig) (x : FCInput) (v : Pix → Bool) : Pix → Bool :=
  fun p =>
    match cfg.max_sum_limit with
    | none => v p
    | some l => v p && decide (sumBands x p < l)

/-- Lines 124–128: when a clip range is configured, clip the band into
`[lo, hi]` (`np.clip`) and restore pixels that were NODATA beforehand to
NODATA (`clipped.where(~mask, NODATA)`). -/
def clipStep (cfg : FCConfig) (band : Pix → ℕ) : Pix → ℕ :=
  fun p =>
    match cfg.clip_range with
    | none => band p
    | some lohi =>
        if band p = NODATA then NODATA else min (max (band p) lohi.1) lohi.2

/-- Line 134: `keep_good_only(xx, valid, nodata=NODATA)` on one band —
keep the value where `valid` holds, NODATA elsewhere. -/
def keepGood (v : Pix → Bool) (band : Pix → ℕ) (p : Pix) : ℕ :=
  if v p then band p else NODATA

/-- The dataset returned by `native_transform`: the three retained
fractional-cover bands plus the `wet` and `valid` boolean bands. -/
structure FCTransformed where
  bs : Pix → ℕ
  pv : Pix → ℕ
  npv : Pix → ℕ
  wet : Pix → Bool
  valid : Pix → Bool

/-- `FCPercentiles.native_transform` (lines 72–138), per pixel: classify
dry/wet from the bit-4-discounted water value, clear both masks under the
dilated cloud / cloud-shadow bits, AND the ue-threshold and max-sum-limit
conditions into `valid`, clip the bands, mask everything invalid to
NODATA and attach `wet` and `valid`. -/
def native_transform (cfg : FCConfig) (x : FCInput) : FCTransformed :=
  let v1 := validAfterFilters cfg.cloud_filters x
  let w := wetAfterFilters cfg.cloud_filters x
  let v2 := validAfterUe cfg x v1
  let v := validAfterSum cfg x v2
  { bs := keepGood v (clipStep cfg x.bs)
  , pv := keepGood v (clipStep cfg x.pv)
  , npv := keepGood v (clipStep cfg x.npv)
  , wet := w
  , valid := v }

/-- The variables of the input dataset `xx`. -/
def inputVars : List String := ["water", "bs", "pv", "npv", "ue"]

/-- `xx.drop_vars([name])` on the variable list. -/
def dropVar (vars : List String) (name : String) : List String :=
  vars.filter (fun v => v ≠ name)

/-- The variable list of the dataset returned by `native_transform`:
`water` dropped at line 105, `ue` dropped at line 111, `wet` and `valid`
attached at lines 135–136. -/
def native_transform_vars : List String :=
  dropVar (dropVar inputVars "water") "ue" ++ ["wet", "valid"]

/-! ### Scene-level sentinel remap (`FCProcessor.process`, lines 116–125)

Each fractional-cover band leaves the upstream `FractionalCover.compute`
as int8 with sentinel -1 and is remapped to uint8 with sentinel 255:
`astype("int16")`, then `where(band != -1, 255)`, then `astype("uint8")`.
The int8→int16 cast is exact; the int16→uint8 cast wraps modulo 256. -/

/-- The upstream nodata sentinel of the fractional-cover library. -/
def OLD_NODATA : ℤ := -1

/-- The per-value sentinel remap of `FCProcessor.process`: an int8 band
value `v` becomes `(if v = -1 then 255 else v)` wrapped into uint8. -/
def fc_remap (v : ℤ) : ℕ :=
  ((if v = OLD_NODATA then (255 : ℤ) else v) % 256).toNat

/-! ### Control flow of the task drivers -/

/-- The possible outcomes of running the inner task
(`Task(...).run()` in `create_annual_summary.main`, or
`ItemStacTask(...).run()` in `process_fc_scene`). -/
inductive TaskOutcome where
  | ok (paths : List String)
  | emptyCollection (msg : String)
  | failure (msg : String)
deriving DecidableEq

/-- One row appended to the pipe-delimited CSV run log: the status and
comment columns of the logged list. -/
structure LogRow where
  status : String
  comment : String
deriving DecidableEq

/-- The observable result of one driver invocation: the log rows it
appends and the exception it lets propagate, if any. -/
structure MainResult where
  rows : List LogRow
  raised : Option TaskOutcome
deriving DecidableEq

/-- The `try`/`except`/`else` of `create_annual_summary.main`
(lines 223–249): an `EmptyCollectionError` is logged as
`"empty collection error"` and re-raised only when
`raise_empty_collection_error` is set; any other exception is logged as
`"error"` and re-raised; on success a `"complete"` row is appended. -/
def annualMain (raiseEmpty : Bool) (outcome : TaskOutcome) : MainResult :=
  match outcome with
  | .ok paths =>
      { rows := [⟨"complete", String.intercalate "," paths⟩], raised := none }
  | .emptyCollection e =>
      { rows := [⟨"empty collection error", e⟩]
      , raised := if raiseEmpty then some (.emptyCollection e) else none }
  | .failure e =>
      { rows := [⟨"error", e⟩], raised := some (.failure e) }

/-- The observable result of `process_fc_scene`: the returned value, and
whether an `.error.txt` traceback object was written to storage and
whether an exception propagates out of the function. -/
structure SceneResult where
  returned : Option (List String)
  errorLogWritten : Bool
  raised : Bool
deriving DecidableEq

/-- `process_fc_scene` (lines 39–80): skip when the STAC object already
exists; otherwise run the task and return its paths; on any exception,
dump the traceback to a sibling `.error.txt` object and fall through —
the exception is not re-raised and the function returns `None`. -/
def process_fc_scene (stacExists : Bool) (taskRun : Except String (List String)) :
    SceneResult :=
  if stacExists then { returned := none, errorLogWritten := false, raised := false }
  else
    match taskRun with
    | .ok paths =>
        { returned := some paths, errorLogWritten := false, raised := false }
    | .error _ =>
        { returned := none, errorLogWritten := true, raised := false }

/-- `process_scenes_for_year.main` (lines 50–69): an
`EmptyCollectionError` from the STAC search is logged as
`"no items found"` and the function returns without re-raising; on
success a `"complete"` row is appended. -/
def yearMain (searchRun : Except String (List String)) : MainResult :=
  match searchRun with
  | .error e => { rows := [⟨"no items found", e⟩], raised := none }
  | .ok paths =>
      { rows := [⟨"complete", String.intercalate "," paths⟩], raised := none }

/-! ### Task lister (`src/list.py`) -/

/-- A tile identifier on the grid ((column, row) multi-index). -/
abbrev Tile := ℕ × ℕ

/-- One parsed row of an existing run log: the tile index and the status
column. -/
structure LogEntry where
  index : Tile
  status : String
deriving DecidableEq

/-- Whether the log marks the tile complete. -/
def hasComplete (log : List LogEntry) (t : Tile) : Bool :=
  log.any (fun e => e.index == t && e.status == "complete")

/-- Whether the log records a failed run for the tile (any row whose
status is not `"complete"` was written by an error branch). -/
def hasError (log : List LogEntry) (t : Tile) : Bool :=
  log.any (fun e => e.index == t && e.status != "complete")

/-- Modelled from the spec: `cloud_logger.filter_by_log` (not part of
this repository) keeps the grid rows not yet marked complete in the log,
and drops rows with a previously errored run unless `retry_errors` is
set. -/
def filter_by_log (grid : List Tile) (log : List LogEntry) (retryErrors : Bool) :
    List Tile :=
  grid.filter (fun t =>
    !(hasComplete log t) && (retryErrors || !(hasError log t)))

/-- `list.main` (lines 29–63): for each year, filter the grid by that
year's run log and emit one (tile, year) parameter per remaining grid
row; finally cap the list to the first `limit` entries when a limit is
given (`params[0:int(limit)]`). -/
def listerParams (years : List ℕ) (grid : List Tile) (logFor : ℕ → List LogEntry)
    (retryErrors : Bool) (limit : Option ℕ) : List (Tile × ℕ) :=
  let params := years.flatMap (fun y =>
    (filter_by_log grid (logFor y) retryErrors).map (fun t => (t, y)))
  match limit with
  | none => params
  | some n => params.take n

/-! ### Annual reducer (`FCPercentiles.process`, lines 140–165) -/

/-- A time key of the scene stack (`groupby("time")`). -/
abbrev Time := ℤ

/-- A summary dataset produced by the reduction: named bands whose pixel
values may be null (`Option`) before the final NODATA fill and uint8
cast. -/
abbrev Summary := List (String × (Pix → Option ℕ))

/-- The parameters `FCPercentiles.process` closes over: the transform
configuration, the externally supplied fuser, the `StatsFCP.reduce`
percentile reduction, and the GADM land mask used by `mask_to_gadm`. -/
structure AnnualParams where
  cfg : FCConfig
  fuser : List FCTransformed → FCTransformed
  reducer : List (Time × FCTransformed) → Summary
  gadm : Pix → Bool

/-- `groupby("time")`: the distinct time keys of the stack, each with its
slices. -/
def groupByTime (slices : List (Time × FCTransformed)) :
    List (Time × List FCTransformed) :=
  ((slices.map Prod.fst).dedup).map fun t =>
    (t, (slices.filter (fun s => s.1 = t)).map Prod.snd)

/-- `FCPercentiles.process`: transform each slice with
`native_transform`, fuse same-time observations, reduce across time,
mask to GADM when a footprint is supplied, then replace nulls by NODATA
and cast to uint8. -/
def processAnnual (P : AnnualParams) (area : Option Unit)
    (input : List (Time × FCInput)) : List (String × (Pix → ℕ)) :=
  let transformed := input.map fun s => (s.1, native_transform P.cfg s.2)
  let fused := (groupByTime transformed).map fun g => (g.1, P.fuser g.2)
  let output := P.reducer fused
  let masked : Summary :=
    match area with
    | none => output
    | some _ => output.map fun b : String × (Pix → Option ℕ) =>
        (b.1, fun p => if P.gadm p then b.2 p else none)
  masked.map fun b : String × (Pix → Option ℕ) =>
    (b.1, fun p => (match b.2 p with | none => NODATA | some v => v) % 256)

/-! ### Concrete instances used to exercise the model -/

/-- A configuration with nothing configured: no dilation filters, no ue
threshold, no max-sum limit, no clip range. -/
def cfgPlain : FCConfig := ⟨⟨none, none⟩, none, none, none⟩

/-- A configuration with only a ue threshold of 5 configured. -/
def cfgUe5 : FCConfig := ⟨⟨none, none⟩, some 5, none, none⟩

/-- The configuration built in `create_annual_summary.main`:
`cloud_filters=dict(cloud=[("dilation", 6)], cloud_shadow=[("dilation", 6)])`,
nothing else configured. -/
def cfgDilation6 : FCConfig := ⟨⟨some 6, some 6⟩, none, none, none⟩

/-- A uniform one-value scene: every pixel has `water=0`, `bs=10`,
`pv=80`, `npv=5`, `ue=1`. -/
def sceneDry : FCInput :=
  ⟨fun _ => 0, fun _ => 10, fun _ => 80, fun _ => 5, fun _ => 1⟩

/-- `sceneDry` with a high unmixing error (`ue=10`) everywhere. -/
def sceneDryHighUe : FCInput :=
  ⟨fun _ => 0, fun _ => 10, fun _ => 80, fun _ => 5, fun _ => 10⟩

/-- `sceneDry` with the cloud bit set everywhere (`water=64`). -/
def sceneCloud : FCInput :=
  ⟨fun _ => 64, fun _ => 10, fun _ => 80, fun _ => 5, fun _ => 1⟩

/-- A configuration with a max-sum limit of 300 and a clip range of
`[0, 100]` configured. -/
def cfgClip : FCConfig := ⟨⟨none, none⟩, none, some 300, some (0, 100)⟩

/-- A scene whose fractional-cover bands are NODATA everywhere. -/
def sceneAllNodata : FCInput :=
  ⟨fun _ => 0, fun _ => 255, fun _ => 255, fun _ => 255, fun _ => 1⟩

/-- A trivial instantiation of the externally supplied annual-reduction
parameters. -/
def trivialParams : AnnualParams :=
  { cfg := cfgPlain
  , fuser := fun l =>
      l.headD ⟨fun _ => NODATA, fun _ => NODATA, fun _ => NODATA,
        fun _ => false, fun _ => false⟩
  , reducer := fun _ => []
  , gadm := fun _ => true }

/-- The three-tile grid of the lister scenario. -/
def gridThree : List Tile := [(1, 1), (2, 2), (3, 3)]

/-- A run log marking the first two tiles of `gridThree` complete. -/
def logTwoComplete : List LogEntry := [⟨(1, 1), "complete"⟩, ⟨(2, 2), "complete"⟩]

end DepFC

namespace DepFC

/-! ### Helper lemmas -/

theorem filterStep_imp {bit : ℕ} {filt : Option ℕ} {x : FCInput} {m : Pix → Bool}
    {p : Pix} (h : filterStep bit filt x m p = true) : m p = true := by
  cases filt with
  | none => exact h
  | some r => exact (Bool.and_eq_true _ _ |>.mp h).1

theorem validAfterUe_imp {cfg : FCConfig} {x : FCInput} {v : Pix → Bool} {p : Pix}
    (h : validAfterUe cfg x v p = true) : v p = true := by
  unfold validAfterUe at h
  split at h
  · exact h
  · exact (Bool.and_eq_true _ _ |>.mp h).1

theorem validAfterSum_imp {cfg : FCConfig} {x : FCInput} {v : Pix → Bool} {p : Pix}
    (h : validAfterSum cfg x v p = true) : v p = true := by
  unfold validAfterSum at h
  split at h
  · exact h
  · exact (Bool.and_eq_true _ _ |>.mp h).1

theorem native_valid_imp_valid0 {cfg : FCConfig} {x : FCInput} {p : Pix}
    (h : (native_transform cfg x).valid p = true) : valid0 x p = true := by
  have h1 : validAfterFilters cfg.cloud_filters x p = true :=
    validAfterUe_imp (validAfterSum_imp h)
  exact filterStep_imp (filterStep_imp h1)

theorem native_wet_imp_wet0 {cfg : FCConfig} {x : FCInput} {p : Pix}
    (h : (native_transform cfg x).wet p = true) : wet0 x p = true := by
  have h1 : wetAfterFilters cfg.cloud_filters x p = true := h
  exact filterStep_imp (filterStep_imp h1)

theorem native_valid_of_valid0_false {cfg : FCConfig} {x : FCInput} {p : Pix}
    (h : valid0 x p = false) : (native_transform cfg x).valid p = false := by
  cases hv : (native_transform cfg x).valid p with
  | false => rfl
  | true => exact absurd (native_valid_imp_valid0 hv) (by simp [h])

theorem native_bands_of_invalid {cfg : FCConfig} {x : FCInput} {p : Pix}
    (h : (native_transform cfg x).valid p = false) :
    (native_transform cfg x).bs p = NODATA ∧
    (native_transform cfg x).pv p = NODATA ∧
    (native_transform cfg x).npv p = NODATA := by
  simp only [native_transform, keepGood] at h ⊢
  rw [h]
  simp

theorem clipStep_nodata {cfg : FCConfig} {band : Pix → ℕ} {p : Pix}
    (h : band p = NODATA) : clipStep cfg band p = NODATA := by
  unfold clipStep
  split
  · exact h
  · simp [h]

/-! ### Claims -/

/-- Claim C1 counterexample: the claim as stated is false.  With no
cloud or cloud-shadow dilation filters configured but a ue threshold of
5, a pixel whose water value is 0 and whose unmixing error is 10 gets a
false output valid band. -/
theorem C1_counterexample :
    cfgUe5.cloud_filters.cloud = none ∧ cfgUe5.cloud_filters.cloud_shadow = none ∧
    sceneDryHighUe.water (0, 0) = 0 ∧
    (native_transform cfgUe5 sceneDryHighUe).valid (0, 0) = false := by
  refine ⟨rfl, rfl, rfl, ?_⟩
  decide

/-- Claim C1 (amended): when no cloud/cloud-shadow dilation filters and
additionally no ue threshold and no max-sum limit are configured, a
pixel whose water value is 0 has the output valid band true and the wet
band false, and a pixel whose water value is 128 has wet true and valid
false; the terrain-slope bit 4 is discounted before this
classification. -/
theorem C1_dry_wet_classification (cfg : FCConfig) (x : FCInput) (p : Pix)
    (hc : cfg.cloud_filters.cloud = none)
    (hs : cfg.cloud_filters.cloud_shadow = none)
    (hu : cfg.ue_threshold = none) (hm : cfg.max_sum_limit = none) :
    (x.water p = 0 →
      (native_transform cfg x).valid p = true ∧
      (native_transform cfg x).wet p = false) ∧
    (x.water p = 128 →
      (native_transform cfg x).wet p = true ∧
      (native_transform cfg x).valid p = false) := by
  constructor <;> intro h <;>
    simp only [native_transform, validAfterSum, validAfterUe, validAfterFilters,
      wetAfterFilters, filterStep, hc, hs, hu, hm, valid0, wet0, discounted, h,
      terrainMask] <;>
    exact ⟨rfl, rfl⟩

/-- Claim C1 witness: the amended theorem applied to the all-none
configuration and a clear dry scene. -/
theorem C1_dry_wet_classification_witness :
    sceneDry.water (0, 0) = 0 ∧
    (native_transform cfgPlain sceneDry).valid (0, 0) = true ∧
    (native_transform cfgPlain sceneDry).wet (0, 0) = false :=
  ⟨rfl, (C1_dry_wet_classification cfgPlain sceneDry (0, 0) rfl rfl rfl rfl).1 rfl⟩

/-- Claim C10: for every configuration, input dataset and pixel, the
valid and wet output bands of `native_transform` are never both true:
valid requires the bit-4-discounted water value to be 0 and wet requires
it to be 128, and every later step only clears entries of both masks. -/
theorem C10_valid_wet_never_both (cfg : FCConfig) (x : FCInput) (p : Pix) :
    ((native_transform cfg x).valid p && (native_transform cfg x).wet p) = false := by
  cases hv : (native_transform cfg x).valid p with
  | false => simp
  | true =>
    cases hw : (native_transform cfg x).wet p with
    | false => simp
    | true =>
      exfalso
      have h0 := native_valid_imp_valid0 hv
      have h1 := native_wet_imp_wet0 hw
      simp only [valid0, wet0, beq_iff_eq] at h0 h1
      rw [h0] at h1
      exact absurd h1 (by decide)

/-- Claim C2: everywhere the output valid band is false all retained
fractional-cover bands are NODATA; the output contains the wet and valid
bands while water and ue are dropped; and in the scenario of a scene
with the cloud bit set (`water = 64`) under the dilation configuration
of `main`, valid is false and every fractional-cover band is 255. -/
theorem C2_masking_and_bands :
    (∀ (cfg : FCConfig) (x : FCInput) (p : Pix),
      (native_transform cfg x).valid p = false →
        (native_transform cfg x).bs p = NODATA ∧
        (native_transform cfg x).pv p = NODATA ∧
        (native_transform cfg x).npv p = NODATA) ∧
    "wet" ∈ native_transform_vars ∧ "valid" ∈ native_transform_vars ∧
    "water" ∉ native_transform_vars ∧ "ue" ∉ native_transform_vars ∧
    (∀ p : Pix,
      (native_transform cfgDilation6 sceneCloud).valid p = false ∧
      (native_transform cfgDilation6 sceneCloud).bs p = NODATA ∧
      (native_transform cfgDilation6 sceneCloud).pv p = NODATA ∧
      (native_transform cfgDilation6 sceneCloud).npv p = NODATA) := by
  refine ⟨fun cfg x p h => native_bands_of_invalid h, by decide, by decide,
    by decide, by decide, fun p => ?_⟩
  have hv : (native_transform cfgDilation6 sceneCloud).valid p = false := by
    apply native_valid_of_valid0_false
    simp only [valid0, discounted, sceneCloud, terrainMask]
    rfl
  exact ⟨hv, native_bands_of_invalid hv⟩

/-- Claim C2 witness: the masking conjunct applied to a concrete invalid
pixel. -/
theorem C2_masking_and_bands_witness :
    (native_transform cfgPlain sceneCloud).valid (0, 0) = false ∧
    (native_transform cfgPlain sceneCloud).bs (0, 0) = NODATA ∧
    (native_transform cfgPlain sceneCloud).pv (0, 0) = NODATA ∧
    (native_transform cfgPlain sceneCloud).npv (0, 0) = NODATA :=
  ⟨by decide, C2_masking_and_bands.1 cfgPlain sceneCloud (0, 0) (by decide)⟩

/-- Claim C3: for every configuration and every fractional-cover band,
a pixel equal to the NODATA sentinel before the sum-limit/clip-range
step is still NODATA after it: the clip transform never clobbers the
NODATA sentinel. -/
theorem C3_clip_preserves_nodata (cfg : FCConfig) (x : FCInput) (p : Pix) :
    (x.bs p = NODATA → clipStep cfg x.bs p = NODATA) ∧
    (x.pv p = NODATA → clipStep cfg x.pv p = NODATA) ∧
    (x.npv p = NODATA → clipStep cfg x.npv p = NODATA) :=
  ⟨fun h => clipStep_nodata h, fun h => clipStep_nodata h, fun h => clipStep_nodata h⟩

/-- Claim C3 witness: NODATA survives the clip step of a configured
clip range on a concrete all-NODATA band. -/
theorem C3_clip_preserves_nodata_witness :
    sceneAllNodata.bs (0, 0) = NODATA ∧
    clipStep cfgClip sceneAllNodata.bs (0, 0) = NODATA :=
  ⟨rfl, (C3_clip_preserves_nodata cfgClip sceneAllNodata (0, 0)).1 rfl⟩

/-- Claim C4 counterexample: the claim as stated is false.  The int8
value -2 is not the sentinel, yet the remap sends it to 254, not to an
unchanged -2 (a negative value cannot survive the uint8 cast unchanged;
only its two's-complement bit pattern does). -/
theorem C4_counterexample :
    (-2 : ℤ) ≠ OLD_NODATA ∧ -128 ≤ (-2 : ℤ) ∧ (-2 : ℤ) ≤ 127 ∧
    fc_remap (-2) = 254 ∧ (fc_remap (-2) : ℤ) ≠ -2 := by
  refine ⟨by decide, by decide, by decide, by decide, by decide⟩

/-- Claim C4 (amended): over the signed-8-bit input range, the sentinel
-1 is mapped to 255; every non-negative value passes through to the
uint8 output unchanged; and every negative value is mapped to
`v + 256`, preserving its two's-complement bit pattern. -/
theorem C4_sentinel_remap (v : ℤ) (hlo : -128 ≤ v) (hhi : v ≤ 127) :
    (v = OLD_NODATA → fc_remap v = 255) ∧
    (0 ≤ v → (fc_remap v : ℤ) = v) ∧
    (v < 0 → (fc_remap v : ℤ) = v + 256) := by
  unfold fc_remap OLD_NODATA
  refine ⟨fun h => ?_, fun h0 => ?_, fun hneg => ?_⟩
  · subst h
    decide
  · rw [if_neg (by omega)]
    have h1 : v % 256 = v := Int.emod_eq_of_lt h0 (by omega)
    rw [h1, Int.toNat_of_nonneg h0]
  · by_cases h : v = -1
    · rw [if_pos h, h]
      decide
    · rw [if_neg h]
      have h1 : v % 256 = v + 256 := by omega
      rw [h1, Int.toNat_of_nonneg (by omega)]

/-- Claim C4 witness: the amended theorem applied to the sentinel and
to the ordinary value 100. -/
theorem C4_sentinel_remap_witness :
    -128 ≤ (-1 : ℤ) ∧ (-1 : ℤ) ≤ 127 ∧ fc_remap (-1) = 255 ∧
    (0 : ℤ) ≤ 100 ∧ (fc_remap 100 : ℤ) = 100 :=
  ⟨by decide, by decide, (C4_sentinel_remap (-1) (by decide) (by decide)).1 rfl,
    by decide, (C4_sentinel_remap 100 (by decide) (by decide)).2.1 (by decide)⟩

/-- Claim C5 counterexample: the claim as stated is false on the
scene-level path.  When the inner task of `process_fc_scene` raises, the
traceback is dumped to the error-log object but the exception is not
re-raised: the function swallows it and returns None. -/
theorem C5_counterexample :
    (process_fc_scene false (.error "boom")).errorLogWritten = true ∧
    (process_fc_scene false (.error "boom")).raised = false ∧
    (process_fc_scene false (.error "boom")).returned = none :=
  ⟨rfl, rfl, rfl⟩

/-- Claim C5 (amended): a non-empty-collection exception on the
tile-level path (`create_annual_summary.main`) is logged as an "error"
row and re-raised; on the scene-level path (`process_fc_scene`) the full
traceback is written to the sibling error-log object but the exception
is then swallowed — the function returns None without re-raising. -/
theorem C5_error_logging (raiseEmpty : Bool) (e r : String) :
    (annualMain raiseEmpty (.failure e)).rows = [⟨"error", e⟩] ∧
    (annualMain raiseEmpty (.failure e)).raised = some (.failure e) ∧
    (process_fc_scene false (.error r)).errorLogWritten = true ∧
    (process_fc_scene false (.error r)).raised = false ∧
    (process_fc_scene false (.error r)).returned = none :=
  ⟨rfl, rfl, rfl, rfl, rfl⟩

/-- Claim C6: an empty collection is logged and skipped; the error
propagates exactly when re-raising was explicitly requested; and a task
that completes without exception appends a "complete" row (on both the
annual-summary and the per-year scene paths). -/
theorem C6_empty_collection (raiseEmpty : Bool) (e : String) (paths : List String) :
    (annualMain raiseEmpty (.emptyCollection e)).rows =
      [⟨"empty collection error", e⟩] ∧
    (annualMain raiseEmpty (.emptyCollection e)).raised.isSome = raiseEmpty ∧
    (raiseEmpty = false →
      (annualMain raiseEmpty (.emptyCollection e)).raised = none) ∧
    (raiseEmpty = true →
      (annualMain raiseEmpty (.emptyCollection e)).raised =
        some (.emptyCollection e)) ∧
    (annualMain raiseEmpty (.ok paths)).rows =
      [⟨"complete", String.intercalate "," paths⟩] ∧
    (annualMain raiseEmpty (.ok paths)).raised = none ∧
    (yearMain (.error e)).rows = [⟨"no items found", e⟩] ∧
    (yearMain (.error e)).raised = none ∧
    (yearMain (.ok paths)).rows = [⟨"complete", String.intercalate "," paths⟩] ∧
    (yearMain (.ok paths)).raised = none := by
  cases raiseEmpty <;> simp [annualMain, yearMain]

/-- Claim C6 witness: the empty-collection error propagates with the
flag set and is suppressed without it. -/
theorem C6_empty_collection_witness :
    (annualMain true (.emptyCollection "x")).raised =
      some (.emptyCollection "x") ∧
    (annualMain false (.emptyCollection "x")).raised = none :=
  ⟨(C6_empty_collection true "x" []).2.2.2.1 rfl,
    (C6_empty_collection false "x" []).2.2.1 rfl⟩

/-- Claim C7: the one-pixel scenario (`water=0`, `bs=10`, `pv=80`,
`npv=5`, `ue=1`, threshold 5, nothing else configured) yields a true
valid band and unchanged fractional-cover values; in general a
configured ue threshold makes `ue < threshold` necessary for validity,
and the ue band is always dropped. -/
theorem C7_ue_threshold :
    (∀ p : Pix,
      (native_transform cfgUe5 sceneDry).valid p = true ∧
      (native_transform cfgUe5 sceneDry).wet p = false ∧
      (native_transform cfgUe5 sceneDry).bs p = 10 ∧
      (native_transform cfgUe5 sceneDry).pv p = 80 ∧
      (native_transform cfgUe5 sceneDry).npv p = 5) ∧
    (∀ (cfg : FCConfig) (x : FCInput) (p : Pix) (t : ℕ),
      cfg.ue_threshold = some t →
      (native_transform cfg x).valid p = true → x.ue p < t) ∧
    "ue" ∉ native_transform_vars := by
  refine ⟨fun p => ?_, fun cfg x p t ht hv => ?_, by decide⟩
  · refine ⟨?_, ?_, ?_, ?_, ?_⟩ <;>
      (simp only [native_transform, validAfterSum, validAfterUe, validAfterFilters,
        wetAfterFilters, filterStep, valid0, wet0, discounted, keepGood, clipStep,
        sumBands, goodVal, cfgUe5, sceneDry, terrainMask]; rfl)
  · have h2 : validAfterUe cfg x (validAfterFilters cfg.cloud_filters x) p = true :=
      validAfterSum_imp hv
    unfold validAfterUe at h2
    rw [ht] at h2
    exact of_decide_eq_true ((Bool.and_eq_true _ _).mp h2).2

/-- Claim C7 witness: the ue-necessity conjunct applied to the concrete
scenario. -/
theorem C7_ue_threshold_witness :
    cfgUe5.ue_threshold = some 5 ∧
    (native_transform cfgUe5 sceneDry).valid (0, 0) = true ∧
    sceneDry.ue (0, 0) < 5 :=
  ⟨rfl, by decide, C7_ue_threshold.2.1 cfgUe5 sceneDry (0, 0) 5 rfl (by decide)⟩

/-- Claim C8: the annual reducer is deterministic — two invocations on
equal inputs with the same parameters (configuration, fuser, reducer,
footprint) produce equal output. -/
theorem C8_process_deterministic (P : AnnualParams) (area : Option Unit)
    (d1 d2 : List (Time × FCInput)) (h : d1 = d2) :
    processAnnual P area d1 = processAnnual P area d2 := by
  rw [h]

/-- Claim C8 witness: the theorem applied to a concrete repeated
invocation. -/
theorem C8_process_deterministic_witness :
    processAnnual trivialParams none [] = processAnnual trivialParams none [] :=
  C8_process_deterministic trivialParams none [] [] rfl

/-- Claim C9: a (tile, year) pair is emitted by the lister exactly when
the tile is on the grid, not marked complete in that year's log, and not
previously errored unless the retry flag is set; a limit caps the list
to its first entries; and on a 3-tile grid with 2 complete tiles the
emitted list is exactly the 1 missing tile. -/
theorem C9_lister :
    (∀ (years : List ℕ) (grid : List Tile) (logFor : ℕ → List LogEntry)
        (retryErrors : Bool) (t : Tile) (y : ℕ),
      (t, y) ∈ listerParams years grid logFor retryErrors none ↔
        y ∈ years ∧ t ∈ grid ∧ hasComplete (logFor y) t = false ∧
          (retryErrors = true ∨ hasError (logFor y) t = false)) ∧
    (∀ (years : List ℕ) (grid : List Tile) (logFor : ℕ → List LogEntry)
        (retryErrors : Bool) (n : ℕ),
      listerParams years grid logFor retryErrors (some n) =
        (listerParams years grid logFor retryErrors none).take n) ∧
    listerParams [2024] gridThree (fun _ => logTwoComplete) true none =
      [((3, 3), 2024)] := by
  refine ⟨fun years grid logFor retry t y => ?_, fun _ _ _ _ _ => rfl, by decide⟩
  simp only [listerParams, List.mem_flatMap, List.mem_map, filter_by_log,
    List.mem_filter, Bool.and_eq_true, Bool.or_eq_true, Bool.not_eq_true',
    Prod.mk.injEq]
  constructor
  · rintro ⟨y', hy', t', ⟨ht', hc, hr⟩, rfl, rfl⟩
    exact ⟨hy', ht', hc, hr⟩
  · rintro ⟨hy, ht, hc, hr⟩
    exact ⟨y, hy, t, ⟨ht, hc, hr⟩, rfl, rfl⟩

end DepFC
